import Mathlib

/-!
Shallow embedding of `MetalTypes.h` from
`src/xcalp/apps/ios/clinic/Sources/Core/Processing/MetalTypes.h`.

The header declares four plain C aggregates shared between CPU and GPU code:
`MeshVertex`, `BoundingBox`, `QualityMetrics` and `ProcessingParameters`.
Each is transliterated field for field, in declaration order.  The C scalar
type `float` is modelled by the exact type `ℚ`: every property considered
here is structural (construction, projection, field update, equality of
aggregates) and performs no floating-point arithmetic, so the only facts
used about the scalar type are that assignment and projection are exact,
which holds for C `float` fields as well.
-/

/-- Model of the C scalar type `float` as it appears in the header.  The
claims are about construction and projection only, never about arithmetic
or rounding, so an exact scalar type is a faithful model. -/
abbrev CFloat := ℚ

/-- Model of `vector_float3` from `<simd/simd.h>`: a three-component float
vector whose components are accessed as `.x`, `.y`, `.z`. -/
structure vector_float3 where
  x : CFloat
  y : CFloat
  z : CFloat
  deriving DecidableEq

/-- Transliteration of the C struct `MeshVertex`:
`vector_float3 position; vector_float3 normal; float confidence;`. -/
structure MeshVertex where
  position : vector_float3
  normal : vector_float3
  confidence : CFloat
  deriving DecidableEq

/-- Transliteration of the C struct `BoundingBox`:
`vector_float3 min; vector_float3 max;`. -/
structure BoundingBox where
  min : vector_float3
  max : vector_float3
  deriving DecidableEq

/-- Transliteration of the C struct `QualityMetrics`:
`float pointDensity; float surfaceCompleteness; float noiseLevel;
float featurePreservation;`. -/
structure QualityMetrics where
  pointDensity : CFloat
  surfaceCompleteness : CFloat
  noiseLevel : CFloat
  featurePreservation : CFloat
  deriving DecidableEq

/-- Transliteration of the C struct `ProcessingParameters`:
`float spatialSigma; float rangeSigma; float confidenceThreshold;
float featureWeight;`. -/
structure ProcessingParameters where
  spatialSigma : CFloat
  rangeSigma : CFloat
  confidenceThreshold : CFloat
  featureWeight : CFloat
  deriving DecidableEq

/-- Projection of a `MeshVertex` onto the product of its field types, in
declaration order. -/
def MeshVertex.toProd (v : MeshVertex) : vector_float3 × vector_float3 × CFloat :=
  (v.position, v.normal, v.confidence)

/-- Reconstruction of a `MeshVertex` from the product of its field types,
in declaration order. -/
def MeshVertex.ofProd (p : vector_float3 × vector_float3 × CFloat) : MeshVertex :=
  ⟨p.1, p.2.1, p.2.2⟩

/-- Projection of a `BoundingBox` onto the product of its field types, in
declaration order. -/
def BoundingBox.toProd (b : BoundingBox) : vector_float3 × vector_float3 :=
  (b.min, b.max)

/-- Reconstruction of a `BoundingBox` from the product of its field types,
in declaration order. -/
def BoundingBox.ofProd (p : vector_float3 × vector_float3) : BoundingBox :=
  ⟨p.1, p.2⟩

/-- Projection of a `QualityMetrics` onto the product of its field types,
in declaration order. -/
def QualityMetrics.toProd (q : QualityMetrics) : CFloat × CFloat × CFloat × CFloat :=
  (q.pointDensity, q.surfaceCompleteness, q.noiseLevel, q.featurePreservation)

/-- Reconstruction of a `QualityMetrics` from the product of its field
types, in declaration order. -/
def QualityMetrics.ofProd (p : CFloat × CFloat × CFloat × CFloat) : QualityMetrics :=
  ⟨p.1, p.2.1, p.2.2.1, p.2.2.2⟩

/-- Projection of a `ProcessingParameters` onto the product of its field
types, in declaration order. -/
def ProcessingParameters.toProd (p : ProcessingParameters) :
    CFloat × CFloat × CFloat × CFloat :=
  (p.spatialSigma, p.rangeSigma, p.confidenceThreshold, p.featureWeight)

/-- Reconstruction of a `ProcessingParameters` from the product of its
field types, in declaration order. -/
def ProcessingParameters.ofProd (p : CFloat × CFloat × CFloat × CFloat) :
    ProcessingParameters :=
  ⟨p.1, p.2.1, p.2.2.1, p.2.2.2⟩

/-- C1: `MeshVertex` consists of exactly the fields `position`
(3-component float vector), `normal` (3-component float vector) and
`confidence` (scalar float), in that order and nothing else: the
declaration-order projection onto `vector_float3 × vector_float3 × CFloat`
and the corresponding reconstruction are mutually inverse. -/
theorem C1_MeshVertex_shape :
    (∀ v : MeshVertex, MeshVertex.ofProd v.toProd = v) ∧
    (∀ p : vector_float3 × vector_float3 × CFloat, (MeshVertex.ofProd p).toProd = p) :=
  ⟨fun _ => rfl, fun _ => rfl⟩

/-- C2: `BoundingBox` consists of exactly the fields `min` and `max`, both
3-component float vectors, in that order and nothing else: the
declaration-order projection onto `vector_float3 × vector_float3` and the
corresponding reconstruction are mutually inverse. -/
theorem C2_BoundingBox_shape :
    (∀ b : BoundingBox, BoundingBox.ofProd b.toProd = b) ∧
    (∀ p : vector_float3 × vector_float3, (BoundingBox.ofProd p).toProd = p) :=
  ⟨fun _ => rfl, fun _ => rfl⟩

/-- C3: `QualityMetrics` consists of exactly the four scalar float fields
`pointDensity`, `surfaceCompleteness`, `noiseLevel`, `featurePreservation`,
in that order and nothing else: the declaration-order projection onto
`CFloat × CFloat × CFloat × CFloat` and the corresponding reconstruction
are mutually inverse. -/
theorem C3_QualityMetrics_shape :
    (∀ q : QualityMetrics, QualityMetrics.ofProd q.toProd = q) ∧
    (∀ p : CFloat × CFloat × CFloat × CFloat, (QualityMetrics.ofProd p).toProd = p) :=
  ⟨fun _ => rfl, fun _ => rfl⟩

/-- C4: `ProcessingParameters` consists of exactly the four scalar float
fields `spatialSigma`, `rangeSigma`, `confidenceThreshold`,
`featureWeight`, in that order and nothing else: the declaration-order
projection onto `CFloat × CFloat × CFloat × CFloat` and the corresponding
reconstruction are mutually inverse. -/
theorem C4_ProcessingParameters_shape :
    (∀ q : ProcessingParameters, ProcessingParameters.ofProd q.toProd = q) ∧
    (∀ p : CFloat × CFloat × CFloat × CFloat, (ProcessingParameters.ofProd p).toProd = p) :=
  ⟨fun _ => rfl, fun _ => rfl⟩

/-- C5: constructing any of the four structures from field values and then
projecting each field back yields exactly the values supplied, with no
reordering or coercion loss; in particular a `BoundingBox` built with
`min = (0,0,0)` and `max = (1,1,1)` exposes `min.x = 0` and `max.x = 1`. -/
theorem C5_construct_project_roundtrip :
    (∀ p n c, (MeshVertex.mk p n c).position = p ∧ (MeshVertex.mk p n c).normal = n ∧
      (MeshVertex.mk p n c).confidence = c) ∧
    (∀ mn mx, (BoundingBox.mk mn mx).min = mn ∧ (BoundingBox.mk mn mx).max = mx) ∧
    (∀ a b c d, (QualityMetrics.mk a b c d).pointDensity = a ∧
      (QualityMetrics.mk a b c d).surfaceCompleteness = b ∧
      (QualityMetrics.mk a b c d).noiseLevel = c ∧
      (QualityMetrics.mk a b c d).featurePreservation = d) ∧
    (∀ a b c d, (ProcessingParameters.mk a b c d).spatialSigma = a ∧
      (ProcessingParameters.mk a b c d).rangeSigma = b ∧
      (ProcessingParameters.mk a b c d).confidenceThreshold = c ∧
      (ProcessingParameters.mk a b c d).featureWeight = d) ∧
    (BoundingBox.mk ⟨0, 0, 0⟩ ⟨1, 1, 1⟩).min.x = 0 ∧
    (BoundingBox.mk ⟨0, 0, 0⟩ ⟨1, 1, 1⟩).max.x = 1 :=
  ⟨fun _ _ _ => ⟨rfl, rfl, rfl⟩, fun _ _ => ⟨rfl, rfl⟩,
    fun _ _ _ _ => ⟨rfl, rfl, rfl, rfl⟩, fun _ _ _ _ => ⟨rfl, rfl, rfl, rfl⟩,
    rfl, rfl⟩

/-- C6 counterexample: the claim that every value of type `BoundingBox`
satisfies the componentwise `min ≤ max` invariant is false: the type admits
the value `BoundingBox.mk ⟨1,1,1⟩ ⟨0,0,0⟩`, whose `min.x` exceeds its
`max.x`. -/
theorem C6_counterexample :
    ¬ (∀ b : BoundingBox,
        b.min.x ≤ b.max.x ∧ b.min.y ≤ b.max.y ∧ b.min.z ≤ b.max.z) :=
  fun h => absurd (h (BoundingBox.mk ⟨1, 1, 1⟩ ⟨0, 0, 0⟩)).1 (by decide)

/-- C6 (amended): the componentwise `min ≤ max` invariant is not enforced
by the type itself; it holds exactly for those `BoundingBox` values that
are constructed from component vectors already satisfying it: if
`mn.x ≤ mx.x`, `mn.y ≤ mx.y` and `mn.z ≤ mx.z` then the box
`BoundingBox.mk mn mx` satisfies the invariant. -/
theorem C6_invariant_of_ordered_mk (mn mx : vector_float3)
    (hx : mn.x ≤ mx.x) (hy : mn.y ≤ mx.y) (hz : mn.z ≤ mx.z) :
    (BoundingBox.mk mn mx).min.x ≤ (BoundingBox.mk mn mx).max.x ∧
    (BoundingBox.mk mn mx).min.y ≤ (BoundingBox.mk mn mx).max.y ∧
    (BoundingBox.mk mn mx).min.z ≤ (BoundingBox.mk mn mx).max.z :=
  ⟨hx, hy, hz⟩

/-- C6 witness: the amended statement applied to the concrete box with
`min = (0,0,0)` and `max = (1,1,1)`. -/
theorem C6_invariant_of_ordered_mk_witness :
    (BoundingBox.mk ⟨0, 0, 0⟩ ⟨1, 1, 1⟩).min.x ≤ (BoundingBox.mk ⟨0, 0, 0⟩ ⟨1, 1, 1⟩).max.x ∧
    (BoundingBox.mk ⟨0, 0, 0⟩ ⟨1, 1, 1⟩).min.y ≤ (BoundingBox.mk ⟨0, 0, 0⟩ ⟨1, 1, 1⟩).max.y ∧
    (BoundingBox.mk ⟨0, 0, 0⟩ ⟨1, 1, 1⟩).min.z ≤ (BoundingBox.mk ⟨0, 0, 0⟩ ⟨1, 1, 1⟩).max.z :=
  C6_invariant_of_ordered_mk ⟨0, 0, 0⟩ ⟨1, 1, 1⟩ (by decide) (by decide) (by decide)

/-- C7: construction of each structure is total and performs no clamping,
validation or rejection: every field value is accepted and projected back
unchanged; in particular a `MeshVertex` with `confidence = 2`, a value
outside the expected range since `¬ (2 ≤ 1)`, is representable and its
`confidence` projects back as exactly `2`. -/
theorem C7_total_unvalidated_construction :
    (∀ p n c, (MeshVertex.mk p n c).confidence = c) ∧
    (∀ mn mx, (BoundingBox.mk mn mx).min = mn ∧ (BoundingBox.mk mn mx).max = mx) ∧
    (∀ a b c d, (QualityMetrics.mk a b c d).featurePreservation = d) ∧
    (∀ a b c d, (ProcessingParameters.mk a b c d).confidenceThreshold = c) ∧
    (MeshVertex.mk ⟨0, 0, 0⟩ ⟨0, 0, 0⟩ 2).confidence = 2 ∧
    ¬ ((2 : CFloat) ≤ 1) :=
  ⟨fun _ _ _ => rfl, fun _ _ => ⟨rfl, rfl⟩, fun _ _ _ _ => rfl, fun _ _ _ _ => rfl,
    rfl, by decide⟩

/-- C9: updating any single field of a value of one of the four structures
leaves every other field of that value unchanged; shown for each field of
each structure via the record-update operation. -/
theorem C9_field_update_frame :
    (∀ (v : MeshVertex) p, ({ v with position := p }).normal = v.normal ∧
      ({ v with position := p }).confidence = v.confidence) ∧
    (∀ (v : MeshVertex) n, ({ v with normal := n }).position = v.position ∧
      ({ v with normal := n }).confidence = v.confidence) ∧
    (∀ (v : MeshVertex) c, ({ v with confidence := c }).position = v.position ∧
      ({ v with confidence := c }).normal = v.normal) ∧
    (∀ (b : BoundingBox) mn, ({ b with min := mn }).max = b.max) ∧
    (∀ (b : BoundingBox) mx, ({ b with max := mx }).min = b.min) ∧
    (∀ (q : QualityMetrics) a, ({ q with pointDensity := a }).surfaceCompleteness =
        q.surfaceCompleteness ∧
      ({ q with pointDensity := a }).noiseLevel = q.noiseLevel ∧
      ({ q with pointDensity := a }).featurePreservation = q.featurePreservation) ∧
    (∀ (q : QualityMetrics) b, ({ q with surfaceCompleteness := b }).pointDensity =
        q.pointDensity ∧
      ({ q with surfaceCompleteness := b }).noiseLevel = q.noiseLevel ∧
      ({ q with surfaceCompleteness := b }).featurePreservation = q.featurePreservation) ∧
    (∀ (q : QualityMetrics) c, ({ q with noiseLevel := c }).pointDensity = q.pointDensity ∧
      ({ q with noiseLevel := c }).surfaceCompleteness = q.surfaceCompleteness ∧
      ({ q with noiseLevel := c }).featurePreservation = q.featurePreservation) ∧
    (∀ (q : QualityMetrics) d, ({ q with featurePreservation := d }).pointDensity =
        q.pointDensity ∧
      ({ q with featurePreservation := d }).surfaceCompleteness = q.surfaceCompleteness ∧
      ({ q with featurePreservation := d }).noiseLevel = q.noiseLevel) ∧
    (∀ (r : ProcessingParameters) a, ({ r with spatialSigma := a }).rangeSigma =
        r.rangeSigma ∧
      ({ r with spatialSigma := a }).confidenceThreshold = r.confidenceThreshold ∧
      ({ r with spatialSigma := a }).featureWeight = r.featureWeight) ∧
    (∀ (r : ProcessingParameters) b, ({ r with rangeSigma := b }).spatialSigma =
        r.spatialSigma ∧
      ({ r with rangeSigma := b }).confidenceThreshold = r.confidenceThreshold ∧
      ({ r with rangeSigma := b }).featureWeight = r.featureWeight) ∧
    (∀ (r : ProcessingParameters) c, ({ r with confidenceThreshold := c }).spatialSigma =
        r.spatialSigma ∧
      ({ r with confidenceThreshold := c }).rangeSigma = r.rangeSigma ∧
      ({ r with confidenceThreshold := c }).featureWeight = r.featureWeight) ∧
    (∀ (r : ProcessingParameters) d, ({ r with featureWeight := d }).spatialSigma =
        r.spatialSigma ∧
      ({ r with featureWeight := d }).rangeSigma = r.rangeSigma ∧
      ({ r with featureWeight := d }).confidenceThreshold = r.confidenceThreshold) :=
  ⟨fun _ _ => ⟨rfl, rfl⟩, fun _ _ => ⟨rfl, rfl⟩, fun _ _ => ⟨rfl, rfl⟩,
    fun _ _ => rfl, fun _ _ => rfl,
    fun _ _ => ⟨rfl, rfl, rfl⟩, fun _ _ => ⟨rfl, rfl, rfl⟩,
    fun _ _ => ⟨rfl, rfl, rfl⟩, fun _ _ => ⟨rfl, rfl, rfl⟩,
    fun _ _ => ⟨rfl, rfl, rfl⟩, fun _ _ => ⟨rfl, rfl, rfl⟩,
    fun _ _ => ⟨rfl, rfl, rfl⟩, fun _ _ => ⟨rfl, rfl, rfl⟩⟩

/-- C10: each of the four structures is a pure product of its declared
fields: two values are equal exactly when all corresponding fields are
equal, so the types carry no hidden state or identity. -/
theorem C10_pure_product_equality :
    (∀ a b : MeshVertex, a = b ↔
      a.position = b.position ∧ a.normal = b.normal ∧ a.confidence = b.confidence) ∧
    (∀ a b : BoundingBox, a = b ↔ a.min = b.min ∧ a.max = b.max) ∧
    (∀ a b : QualityMetrics, a = b ↔
      a.pointDensity = b.pointDensity ∧ a.surfaceCompleteness = b.surfaceCompleteness ∧
      a.noiseLevel = b.noiseLevel ∧ a.featurePreservation = b.featurePreservation) ∧
    (∀ a b : ProcessingParameters, a = b ↔
      a.spatialSigma = b.spatialSigma ∧ a.rangeSigma = b.rangeSigma ∧
      a.confidenceThreshold = b.confidenceThreshold ∧ a.featureWeight = b.featureWeight) :=
  ⟨fun a b => by cases a; cases b; simp,
    fun a b => by cases a; cases b; simp,
    fun a b => by cases a; cases b; simp,
    fun a b => by cases a; cases b; simp⟩
